import Mathlib

/-!
Verification of the LLVM-7 backend adapter (`src/backend.rs` of the
`shader-compiler-llvm-7` crate) against its natural-language specification.

The adapter drives LLVM through FFI; LLVM itself is a black box.  The shallow
embedding below therefore models:
  * the pure guard logic of the type builder (`build_array`, `build_vector`,
    `build_struct`, `build_function`) exactly as written in the source, with
    a Rust panic represented as `Option.none`;
  * the instruction builder's insertion-point state (`LLVMPositionBuilderAtEnd`
    / `LLVMClearInsertionPosition`) as an `Option` basic-block reference, with
    the instruction stream of each basic block kept explicitly;
  * the context's owned-module vector and its `Drop` order as a list of
    disposal events;
  * `LLVM7Module::verify` over an abstract engine checker
    (`LLVMVerifyModule`);
  * `LLVM7Compiler::run` as a function of an explicit engine oracle giving
    the outcome of every black-box engine call, returning an outcome
    (success / recoverable error / panic) together with the context-teardown
    event trace.

Machine integers: all LLVM-side counts are C `unsigned`/`u32` values; a Rust
`usize` is modelled as `Nat` and "fits in u32" checks use `% 2^32` exactly as
the source's `count as u32 as usize == count` round-trip does.
-/

/-- C `unsigned` / Rust `u32` width used by the LLVM count parameters. -/
def U32_SIZE : Nat := 2 ^ 32

/-- Rust `u32::checked_mul` on `u32`-valued naturals: `none` on overflow. -/
def u32_checked_mul (a b : Nat) : Option Nat :=
  if a * b < U32_SIZE then some (a * b) else none

/-- `backend::types::VectorLength` (from the backend interface consumed by
`build_vector`): a fixed length, or a base length to be scaled by the
context's configured multiplier. -/
inductive VectorLength where
  | Fixed (length : Nat)
  | Variable (base_length : Nat)
deriving DecidableEq, Repr

/-- Concrete native type handles built by `LLVM7TypeBuilder`.  LLVM type
references are opaque; we model them by their structure, which is all the
builder observes. -/
inductive LLVMTy where
  | void
  | int1
  | int8
  | int16
  | int32
  | int64
  | float
  | double
  | pointer (target : LLVMTy)
  | array (element : LLVMTy) (count : Nat)
  | vector (element : LLVMTy) (length : Nat)
  | struct (members : List LLVMTy)
  | function (arguments : List LLVMTy) (return_type : LLVMTy)

/-- `backend::OptimizationMode` from the run configuration. -/
inductive OptimizationMode where
  | NoOptimizations
  | Normal
deriving DecidableEq, Repr

/-- `LLVM7CompilerConfig` (backend.rs lines 18-22). -/
structure LLVM7CompilerConfig where
  variable_vector_length_multiplier : Nat
  optimization_mode : OptimizationMode
deriving DecidableEq, Repr

/-- `LLVM7TypeBuilder` (backend.rs lines 100-103): carries the context's
vector-length multiplier.  The raw context pointer it also stores is not
observable in any type it builds and is omitted. -/
structure LLVM7TypeBuilder where
  variable_vector_length_multiplier : Nat
deriving DecidableEq, Repr

namespace LLVM7TypeBuilder

/-- `build_bool` (backend.rs line 106). -/
def build_bool (_tb : LLVM7TypeBuilder) : LLVMTy := .int1

/-- `build_i32` (backend.rs line 115). -/
def build_i32 (_tb : LLVM7TypeBuilder) : LLVMTy := .int32

/-- `build_pointer` (backend.rs line 127). -/
def build_pointer (_tb : LLVM7TypeBuilder) (target : LLVMTy) : LLVMTy :=
  .pointer target

/-- `build_array` (backend.rs lines 130-133):
`assert_eq!(count as u32 as usize, count)` then `LLVMArrayType`.  The assert
round-trips `count` through `u32`; a failed assert is a Rust panic,
modelled as `none`. -/
def build_array (_tb : LLVM7TypeBuilder) (element : LLVMTy) (count : Nat) :
    Option LLVMTy :=
  if count % U32_SIZE = count then some (.array element count) else none

/-- `build_vector` (backend.rs lines 134-144): a `Fixed` length is used as
is; a `Variable` base length is scaled by
`variable_vector_length_multiplier` with `checked_mul(...).unwrap()` (panic
on overflow), and the resulting length must pass `assert_ne!(length, 0)`. -/
def build_vector (tb : LLVM7TypeBuilder) (element : LLVMTy)
    (length : VectorLength) : Option LLVMTy :=
  let scaled : Option Nat :=
    match length with
    | .Fixed length => some length
    | .Variable base_length =>
        u32_checked_mul base_length tb.variable_vector_length_multiplier
  match scaled with
  | none => none
  | some length => if length = 0 then none else some (.vector element length)

/-- `build_struct` (backend.rs lines 145-155):
`assert_eq!(members.len() as c_uint as usize, members.len())` then
`LLVMStructTypeInContext`. -/
def build_struct (_tb : LLVM7TypeBuilder) (members : List LLVMTy) :
    Option LLVMTy :=
  if members.length % U32_SIZE = members.length then some (.struct members)
  else none

/-- `build_function` (backend.rs lines 156-170): asserts the argument count
round-trips through `c_uint`, and substitutes `LLVMVoidTypeInContext` when
`return_type` is `None`. -/
def build_function (_tb : LLVM7TypeBuilder) (arguments : List LLVMTy)
    (return_type : Option LLVMTy) : Option LLVMTy :=
  if arguments.length % U32_SIZE = arguments.length then
    some (.function arguments (return_type.getD .void))
  else none

end LLVM7TypeBuilder

/-! ## Instruction builder (`LLVM7Builder`, backend.rs lines 308-344)

The builder wraps an `LLVMBuilderRef`; its only observable state is the
insertion position, set by `LLVMPositionBuilderAtEnd` and cleared by
`LLVMClearInsertionPosition`.  We model the position as an `Option`
basic-block reference (`none` = detached, no insertion point) and keep the
per-block instruction streams explicitly so that emission is observable. -/

/-- Opaque engine reference to a basic block. -/
abbrev BasicBlockRef := Nat

/-- Opaque engine reference to a value. -/
abbrev ValueRef := Nat

/-- Instructions whose emission the claims observe: `LLVMBuildRet value` /
`LLVMBuildRetVoid`, both return terminators. -/
inductive Instr where
  | ret (value : Option ValueRef)
deriving DecidableEq, Repr

/-- `LLVM7Builder` (backend.rs line 309): its observable state is the
engine builder's current insertion position. -/
structure LLVM7Builder where
  pos : Option BasicBlockRef
deriving DecidableEq, Repr

/-- The engine-side instruction streams: each basic block's list of emitted
instructions, in emission order. -/
structure IRState where
  blockInstrs : BasicBlockRef → List Instr

namespace LLVM7Builder

/-- `DetachedBuilder::attach` (backend.rs lines 338-343):
`LLVMPositionBuilderAtEnd(self.0, basic_block.0)` then returns the same
builder, now positioned at the end of `basic_block`. -/
def attach (_b : LLVM7Builder) (basic_block : BasicBlockRef) : LLVM7Builder :=
  { pos := some basic_block }

/-- `AttachedBuilder::current_basic_block` (backend.rs lines 321-323):
`LLVMGetInsertBlock` — the current insertion block, or null when cleared. -/
def current_basic_block (b : LLVM7Builder) : Option BasicBlockRef :=
  b.pos

/-- `AttachedBuilder::build_return` (backend.rs lines 324-333): emits
`LLVMBuildRet value` / `LLVMBuildRetVoid` at the insertion point, then
`LLVMClearInsertionPosition`.  When the builder has an insertion point the
instruction is appended at the end of that block; with no insertion point
the engine creates the instruction without inserting it anywhere. -/
def build_return (s : IRState) (b : LLVM7Builder) (value : Option ValueRef) :
    IRState × LLVM7Builder :=
  match b.pos with
  | some bb =>
      ({ blockInstrs := fun r =>
           if r = bb then s.blockInstrs bb ++ [.ret value] else s.blockInstrs r },
       { pos := none })
  | none => (s, { pos := none })

end LLVM7Builder

/-! ## Builder typestate interface (spec-modelled, for the contract claims)

The attach/detach typestate itself is declared by the `AttachedBuilder` /
`DetachedBuilder` traits of the `shader_compiler::backend` crate, which is
part of this repository but not under `src/` here; only the LLVM-7
implementation of the traits is.  The contract-violation behaviour is
therefore modelled from the spec. -/

/-- A contract violation: a caller bug that stops execution immediately. -/
inductive ContractError where
  | emitWhileDetached
  | attachWhileAttached
deriving DecidableEq, Repr

/-- The two builder states of the spec's state machine. -/
inductive BuilderState where
  | Detached
  | Attached (current : BasicBlockRef)
deriving DecidableEq, Repr

/-- The operations of the spec's builder state machine.  `emit` carries
whether the emitted instruction is a block terminator (e.g. a return). -/
inductive BuilderOp where
  | attachOp (block : BasicBlockRef)
  | emit (instruction : Instr) (isTerminator : Bool)
deriving DecidableEq, Repr

/-- Modelled from the spec: the builder state machine of the backend
interface (`AttachedBuilder`/`DetachedBuilder` traits, declared outside
`src/`).  "`attach(block)`: Detached → Attached; sets the insertion point to
the end of `block`"; emitting is "valid while Attached", a terminator
"transition[s] back to Detached"; "Attempting to emit any instruction while
Detached, or attempting to attach while already Attached without first
detaching, is a fatal contract error." -/
def builderStep (s : BuilderState) (op : BuilderOp) :
    Except ContractError BuilderState :=
  match s, op with
  | .Detached, .attachOp block => .ok (.Attached block)
  | .Detached, .emit _ _ => .error .emitWhileDetached
  | .Attached _, .attachOp _ => .error .attachWhileAttached
  | .Attached current, .emit _ isTerminator =>
      if isTerminator then .ok .Detached else .ok (.Attached current)

/-! ## Module verification (`LLVM7Module::verify`, backend.rs lines 382-401)

`LLVMVerifyModule` is the black-box engine checker; we model its outcome as
a function from the module reference to a pair of the `broken` flag and the
optional diagnostic message the engine wrote (a null message pointer is
`none`).  On `broken`, the source unwraps the message (panic when null,
modelled as `none` overall) and returns
`VerificationFailure::new(self, message)`; otherwise it returns the module
itself as the verified module. -/

/-- `LLVM7Module` (backend.rs lines 346-349): context and module engine
references. -/
structure LLVM7Module where
  context : Nat
  module : Nat
deriving DecidableEq, Repr

/-- `backend::VerificationFailure`: the diagnostic together with the
original, unconsumed module. -/
structure VerificationFailure where
  module : LLVM7Module
  message : String
deriving DecidableEq, Repr

/-- `LLVM7Module::verify` (backend.rs lines 382-401), parameterised by the
engine checker's outcome (`LLVMVerifyModule` with `LLVMReturnStatusAction`):
`checker r = (broken, message)`.  Result `none` models the Rust panic of
`LLVM7String::from_ptr(message).unwrap()` when the engine reports failure
without a message. -/
def LLVM7Module.verify (checker : Nat → Bool × Option String)
    (m : LLVM7Module) : Option (Except VerificationFailure LLVM7Module) :=
  match checker m.module with
  | (true, some message) => some (.error ⟨m, message⟩)
  | (true, none) => none
  | (false, _) => some (.ok m)

/-! ## Context and module ownership (`LLVM7Context`, backend.rs 254-306)

`LLVM7Context` owns `modules: Cell<Vec<LLVMModuleRef>>`; `create_module`
registers the fresh engine module in that vector before returning the
handle, and `Drop` disposes every registered module and then the context
itself.  Fresh engine references are modelled by a counter. -/

/-- Allocator state of the black-box engine: the next fresh reference. -/
structure Engine where
  nextRef : Nat
deriving DecidableEq, Repr

/-- `LLVM7Context` (backend.rs lines 254-258). -/
structure LLVM7Context where
  context : Nat
  modules : List Nat
  config : LLVM7CompilerConfig
deriving DecidableEq, Repr

/-- Disposal events emitted while dropping a context. -/
inductive Event where
  | disposeModule (moduleRef : Nat)
  | disposeContext
deriving DecidableEq, Repr

/-- `Drop for LLVM7Context` (backend.rs lines 260-269): dispose every owned
module, in vector order, then dispose the context itself. -/
def dropContext (c : LLVM7Context) : List Event :=
  c.modules.map Event.disposeModule ++ [Event.disposeContext]

/-- `LLVM7Context::create_module` (backend.rs lines 282-296):
`CString::new(name).unwrap()` (panic on an interior NUL byte, modelled as
`none`), create the engine module, push its reference onto the owned-module
vector, and return the handle.  The reservation before the engine call only
prevents an unwind from leaking the fresh module; it is not otherwise
observable. -/
def LLVM7Context.create_module (e : Engine) (c : LLVM7Context)
    (name : List Char) : Option (Engine × LLVM7Context × LLVM7Module) :=
  if name.contains (Char.ofNat 0) then none
  else
    some (⟨e.nextRef + 1⟩,
          { c with modules := c.modules ++ [e.nextRef] },
          ⟨c.context, e.nextRef⟩)

/-- `LLVM7Context::create_type_builder` (backend.rs lines 300-305). -/
def LLVM7Context.create_type_builder (c : LLVM7Context) : LLVM7TypeBuilder :=
  ⟨c.config.variable_vector_length_multiplier⟩

/-- `LLVM7Context::create_builder` (backend.rs lines 297-299): a fresh
builder with no insertion position. -/
def LLVM7Context.create_builder (_c : LLVM7Context) : LLVM7Builder :=
  ⟨none⟩

/-- A sequence of `create_module` calls (how a frontend populates a
context); `none` as soon as one call panics. -/
def createModules (e : Engine) (c : LLVM7Context) :
    List (List Char) → Option (Engine × LLVM7Context × List LLVM7Module)
  | [] => some (e, c, [])
  | name :: rest =>
      match c.create_module e name with
      | none => none
      | some (e', c', m) =>
          match createModules e' c' rest with
          | none => none
          | some (e'', c'', ms) => some (e'', c'', m :: ms)

/-! ## Compiler driver (`LLVM7Compiler::run`, backend.rs lines 447-544)

`run` is a straight-line orchestration of black-box engine calls.  We model
each engine outcome by an explicit oracle and translate the source's control
flow literally: each Rust `?`/early `return Err` is an `err` outcome, each
`assert!`/`unwrap`/`unimplemented!` panic is a `panic` outcome, and every
exit path carries the drop trace of the context (Rust drops it both on
return and during unwinding). -/

/-- `LLVM7Function` (backend.rs lines 221-224). -/
structure LLVM7Function where
  context : Nat
  function : Nat
deriving DecidableEq, Repr

/-- `backend::CompileInputs`: the finished module plus the key-to-function
mapping supplied by the frontend (the map's values, in iteration order). -/
structure CompileInputs (K : Type) where
  module : LLVM7Module
  callable_functions : List (K × LLVM7Function)

/-- Outcomes of the black-box engine calls `run` makes, one field per call
site.  `Option` fields model calls whose null result the source `unwrap`s
or `assert!`s on. -/
structure EngineOracle where
  /-- `LLVM_InitializeNativeTarget() == 0` (asserted). -/
  initNativeTargetOk : Bool
  /-- `LLVM_InitializeNativeAsmParser() == 0` (asserted). -/
  initNativeAsmParserOk : Bool
  /-- `LLVMGetGlobalParent` of a function reference. -/
  getGlobalParent : Nat → Nat
  /-- `LLVMGetDefaultTargetTriple` (unwrapped; `none` = null). -/
  defaultTargetTriple : Option String
  /-- `LLVMGetTargetFromTriple`: the target reference, or the engine's
  diagnostic text on failure (the source unwraps the error message the
  engine wrote). -/
  getTargetFromTriple : String → Except String Nat
  /-- `LLVMTargetHasJIT`. -/
  targetHasJIT : Nat → Bool
  /-- `LLVMGetHostCPUName` (unwrapped). -/
  hostCPUName : Option String
  /-- `LLVMGetHostCPUFeatures` (unwrapped). -/
  hostCPUFeatures : Option String
  /-- `LLVMCreateTargetMachine` (asserted non-null; `none` = null). -/
  createTargetMachine : Option Nat

/-- The result of one `run`: the value returned to the caller, or a panic. -/
inductive RunOutcome (E K : Type) where
  /-- `Ok(compiled_code)`: a `CompiledCode` handle mapping each function
  key to a runtime-callable entry point. -/
  | success (entry_points : List (K × Nat))
  /-- `Err(e)`: a recoverable error value returned to the caller. -/
  | err (e : E)
  /-- A Rust panic (assert / unwrap / unimplemented). -/
  | panic (message : String)

/-- `success`-ness of a `RunOutcome`. -/
def RunOutcome.isSuccess {E K : Type} : RunOutcome E K → Bool
  | .success _ => true
  | _ => false

/-- `symbol_resolver_fn` (backend.rs lines 455-458): unconditionally panics
(`symbol_resolver_fn is unimplemented`) for every symbol name it is asked
to resolve; it never produces an address.  `none` models the panic. -/
def symbol_resolver_fn (_name : String) : Option Nat :=
  none

/-- Rust's `{:?}` (Debug) rendering of the `CStr` target triple as used in
the no-JIT error message: the string in double quotes. -/
def cstrDebug (s : String) : String :=
  "\"" ++ s ++ "\""

/-- `LLVM7Compiler::run` (backend.rs lines 468-544), over: the engine
oracle; the frontend `user.run` (which may create modules through the
context, so it returns the updated context alongside its result —
`U::Error` is `E`); `U::create_error`; and the run configuration.  Returns
the outcome paired with the context-teardown event trace of the exit path.
The final `unimplemented!()` (line 542) is reached whenever
`LLVMOrcAddEagerlyCompiledIR` is (its status is ignored by the source). -/
def LLVM7Compiler.run {E K : Type} (oracle : EngineOracle)
    (user_run : LLVM7Context → LLVM7Context × Except E (CompileInputs K))
    (create_error : String → E) (config : LLVM7CompilerConfig) :
    RunOutcome E K × List Event :=
  if ¬oracle.initNativeTargetOk then
    (.panic "assertion failed: LLVM_InitializeNativeTarget() == 0", [])
  else if ¬oracle.initNativeAsmParserOk then
    (.panic "assertion failed: LLVM_InitializeNativeAsmParser() == 0", [])
  else
    let context : LLVM7Context := ⟨0, [], config⟩
    match user_run context with
    | (context, .error e) => (.err e, dropContext context)
    | (context, .ok inputs) =>
      if ¬(inputs.callable_functions.all fun kf =>
            oracle.getGlobalParent kf.2.function = inputs.module.module) then
        (.panic "assertion failed: LLVMGetGlobalParent(callable_function.function) == module.module",
         dropContext context)
      else
        match oracle.defaultTargetTriple with
        | none => (.panic "called Option::unwrap on a None value", dropContext context)
        | some target_triple =>
          match oracle.getTargetFromTriple target_triple with
          | .error error => (.err (create_error error), dropContext context)
          | .ok target =>
            if ¬oracle.targetHasJIT target then
              (.err (create_error
                ("target " ++ cstrDebug target_triple ++ " doesn't support JIT")),
               dropContext context)
            else
              match oracle.hostCPUName with
              | none => (.panic "called Option::unwrap on a None value", dropContext context)
              | some _host_cpu_name =>
                match oracle.hostCPUFeatures with
                | none => (.panic "called Option::unwrap on a None value", dropContext context)
                | some _host_cpu_features =>
                  match oracle.createTargetMachine with
                  | none => (.panic "assertion failed: !target_machine.0.is_null()",
                             dropContext context)
                  | some _target_machine =>
                    (.panic "not implemented", dropContext context)

/-! ## Concrete instances used to exercise the driver model -/

/-- The default run configuration (`CompilerIndependentConfig::default`):
multiplier 1, normal optimization. -/
def defaultCfg : LLVM7CompilerConfig := ⟨1, .Normal⟩

/-- A frontend that creates nothing and returns an empty `CompileInputs`
over module reference 0; its error type is `String`, its function-key type
is `String`. -/
def trivialUser :
    LLVM7Context → LLVM7Context × Except String (CompileInputs String) :=
  fun c => (c, .ok ⟨⟨0, 0⟩, []⟩)

/-- An engine oracle on which target resolution fails with a diagnostic. -/
def oracleResolveFail : EngineOracle where
  initNativeTargetOk := true
  initNativeAsmParserOk := true
  getGlobalParent := fun _ => 0
  defaultTargetTriple := some "triple-x"
  getTargetFromTriple := fun _ => .error "no target for triple"
  targetHasJIT := fun _ => true
  hostCPUName := some "cpu"
  hostCPUFeatures := some "features"
  createTargetMachine := some 1

/-- An engine oracle on which the target resolves but lacks JIT support. -/
def oracleNoJIT : EngineOracle :=
  { oracleResolveFail with
    getTargetFromTriple := fun _ => .ok 3
    targetHasJIT := fun _ => false }

/-- An engine oracle describing a healthy host: initialization succeeds,
the default triple resolves to a JIT-capable target, function reference 10
has module reference 0 as its global parent, and the target machine is
created. -/
def oracleHostOk : EngineOracle :=
  { oracleResolveFail with
    getGlobalParent := fun f => if f = 10 then 0 else 99
    getTargetFromTriple := fun _ => .ok 3 }

/-- A frontend that builds the spec's end-to-end scenario: one module
(engine reference 0, registered in the context) containing one function
`"add"` of type `(i32, i32) -> i32` returning the sum of its arguments
(function reference 10, whose global parent is module 0), with `"add"` as
its only callable-function key. -/
def addUser :
    LLVM7Context → LLVM7Context × Except String (CompileInputs String) :=
  fun c =>
    ({ c with modules := c.modules ++ [0] },
     .ok ⟨⟨c.context, 0⟩, [("add", ⟨c.context, 10⟩)]⟩)

/-! ## Theorems -/

/-- A `usize` value round-trips through `u32` exactly when it is below
`2^32`. -/
theorem mod_u32_eq_self_iff (n : Nat) : n % U32_SIZE = n ↔ n < U32_SIZE := by
  constructor
  · intro h
    calc n = n % U32_SIZE := h.symm
    _ < U32_SIZE := Nat.mod_lt _ (by norm_num [U32_SIZE])
  · exact Nat.mod_eq_of_lt

/-- Claim C3: for every element type and configured multiplier `m`,
`build_vector` with `Fixed{length: 4}` yields a vector type of length 4
regardless of `m`; with `Variable{base_length: 4}` it yields a vector type
of length `4*m` when `m ≠ 0` and `4*m` fits in the engine's `u32` length
representation, and panics (a fatal error) when `m = 0` or the product
overflows. -/
theorem claim_C3_build_vector (tb : LLVM7TypeBuilder) (element : LLVMTy) :
    tb.build_vector element (.Fixed 4) = some (.vector element 4) ∧
    tb.build_vector element (.Variable 4) =
      (if tb.variable_vector_length_multiplier = 0 ∨
          U32_SIZE ≤ 4 * tb.variable_vector_length_multiplier then
         none
       else
         some (.vector element (4 * tb.variable_vector_length_multiplier))) := by
  refine ⟨rfl, ?_⟩
  rcases tb with ⟨m⟩
  by_cases h0 : m = 0
  · subst h0
    simp [LLVM7TypeBuilder.build_vector, u32_checked_mul, U32_SIZE]
  · by_cases hov : 4 * m < U32_SIZE
    · have : ¬(m = 0 ∨ U32_SIZE ≤ 4 * m) := by
        push_neg
        exact ⟨h0, hov⟩
      simp [LLVM7TypeBuilder.build_vector, u32_checked_mul, hov, h0, this]
    · have : m = 0 ∨ U32_SIZE ≤ 4 * m := Or.inr (Nat.le_of_not_lt hov)
      simp [LLVM7TypeBuilder.build_vector, u32_checked_mul, hov, this]

/-- Claim C6: `build_array`, `build_struct` and `build_function` panic (a
fatal contract error, never a silent truncation) exactly when the element /
member / argument count does not fit the engine's `u32` count
representation; when the count fits they return the corresponding type
handle, and `build_function` with `return_type = none` produces a
void-returning signature. -/
theorem claim_C6_count_guards (tb : LLVM7TypeBuilder) (element : LLVMTy)
    (count : Nat) (members arguments : List LLVMTy)
    (return_type : Option LLVMTy) :
    tb.build_array element count =
      (if count < U32_SIZE then some (.array element count) else none) ∧
    tb.build_struct members =
      (if members.length < U32_SIZE then some (.struct members) else none) ∧
    tb.build_function arguments return_type =
      (if arguments.length < U32_SIZE then
         some (.function arguments (return_type.getD .void))
       else none) ∧
    tb.build_function arguments none =
      (if arguments.length < U32_SIZE then
         some (.function arguments .void)
       else none) := by
  refine ⟨?_, ?_, ?_, ?_⟩ <;>
    simp only [LLVM7TypeBuilder.build_array, LLVM7TypeBuilder.build_struct,
      LLVM7TypeBuilder.build_function, mod_u32_eq_self_iff, Option.getD]

/-- Claim C2: in the builder state machine of the backend interface
(spec-modelled: the `AttachedBuilder`/`DetachedBuilder` typestate traits are
declared outside `src/`), emitting any instruction while `Detached` is a
fatal contract error, and attaching while already `Attached` without first
detaching is a fatal contract error. -/
theorem claim_C2_builder_contract (instruction : Instr) (isTerminator : Bool)
    (bb bb' : BasicBlockRef) :
    builderStep .Detached (.emit instruction isTerminator) =
      .error .emitWhileDetached ∧
    builderStep (.Attached bb) (.attachOp bb') =
      .error .attachWhileAttached :=
  ⟨rfl, rfl⟩

/-- Claim C5: `attach(block)` sets the insertion point so that
`current_basic_block` returns that block; for every attached builder
(insertion point `some bb`), `build_return` appends a return terminator at
the end of `bb` and clears the insertion point (the builder is detached
afterwards); in particular `attach` immediately followed by `build_return`
always ends with the builder detached. -/
theorem claim_C5_return_detaches (s : IRState) (b : LLVM7Builder)
    (bb : BasicBlockRef) (value : Option ValueRef) :
    (b.attach bb).current_basic_block = some bb ∧
    (LLVM7Builder.build_return s ⟨some bb⟩ value).2.pos = none ∧
    (LLVM7Builder.build_return s ⟨some bb⟩ value).1.blockInstrs bb =
      s.blockInstrs bb ++ [.ret value] ∧
    (LLVM7Builder.build_return s (b.attach bb) value).2.pos = none := by
  refine ⟨rfl, rfl, ?_, rfl⟩
  simp [LLVM7Builder.build_return]

/-- Claim C4: under the engine's interface contract that a reported
verification failure comes with a non-empty diagnostic message
(`LLVMVerifyModule` writes the reasons into `message`), `verify` never
panics, returns the verified module exactly when the checker reports no
failure, and on failure returns an error value carrying a non-empty
diagnostic together with the original module unconsumed. -/
theorem claim_C4_verify (checker : Nat → Bool × Option String)
    (m : LLVM7Module)
    (engine_contract : (checker m.module).1 = true →
      ∃ d, (checker m.module).2 = some d ∧ d ≠ "") :
    m.verify checker ≠ none ∧
    (m.verify checker = some (.ok m) ↔ (checker m.module).1 = false) ∧
    ((checker m.module).1 = true →
      ∃ d, d ≠ "" ∧ m.verify checker = some (.error ⟨m, d⟩)) := by
  rcases hc : checker m.module with ⟨broken, message⟩
  cases broken with
  | false =>
      refine ⟨?_, ?_, ?_⟩
      · simp [LLVM7Module.verify, hc]
      · simp [LLVM7Module.verify, hc]
      · intro h
        simp at h
  | true =>
      obtain ⟨d, hd, hne⟩ := engine_contract (by rw [hc])
      rw [hc] at hd
      simp only at hd
      subst hd
      refine ⟨?_, ?_, ?_⟩
      · simp [LLVM7Module.verify, hc]
      · simp [LLVM7Module.verify, hc]
      · intro _
        exact ⟨d, hne, by simp [LLVM7Module.verify, hc]⟩

/-- Witness for claim C4 at a concrete failing checker: the engine contract
holds, `verify` does not panic, does not report success, and returns the
diagnostic together with the original module. -/
theorem claim_C4_verify_witness :
    ((((fun _ : Nat => ((true : Bool), some "bad IR")) 5).1 = true →
        ∃ d, ((fun _ : Nat => ((true : Bool), some "bad IR")) 5).2 = some d ∧
          d ≠ "")) ∧
    (LLVM7Module.verify (fun _ => (true, some "bad IR")) ⟨0, 5⟩ ≠ none ∧
     (LLVM7Module.verify (fun _ => (true, some "bad IR")) ⟨0, 5⟩ =
        some (.ok ⟨0, 5⟩) ↔
        ((fun _ : Nat => ((true : Bool), some "bad IR")) 5).1 = false) ∧
     (((fun _ : Nat => ((true : Bool), some "bad IR")) 5).1 = true →
       ∃ d, d ≠ "" ∧
         LLVM7Module.verify (fun _ => (true, some "bad IR")) ⟨0, 5⟩ =
           some (.error ⟨⟨0, 5⟩, d⟩))) :=
  ⟨fun _ => ⟨"bad IR", rfl, by decide⟩,
   claim_C4_verify (fun _ => (true, some "bad IR")) ⟨0, 5⟩
     (fun _ => ⟨"bad IR", rfl, by decide⟩)⟩

/-- Closed form of a sequence of `create_module` calls with NUL-free names:
the engine hands out consecutive fresh references, and each one is
registered in the context's owned-module vector, in creation order. -/
theorem createModules_eq (names : List (List Char)) :
    ∀ (n ctxRef : Nat) (ms : List Nat) (cfg : LLVM7CompilerConfig),
    (∀ nm ∈ names, nm.contains (Char.ofNat 0) = false) →
    createModules ⟨n⟩ ⟨ctxRef, ms, cfg⟩ names =
      some (⟨n + names.length⟩,
            ⟨ctxRef, ms ++ List.range' n names.length, cfg⟩,
            (List.range' n names.length).map fun r => ⟨ctxRef, r⟩) := by
  induction names with
  | nil =>
      intro n ctxRef ms cfg _
      simp [createModules]
  | cons name rest ih =>
      intro n ctxRef ms cfg h
      have hname : name.contains (Char.ofNat 0) = false :=
        h name (List.mem_cons_self _ _)
      have hrest : ∀ nm ∈ rest, nm.contains (Char.ofNat 0) = false :=
        fun nm hm => h nm (List.mem_cons_of_mem _ hm)
      simp only [createModules, LLVM7Context.create_module, hname,
        Bool.false_eq_true, if_false, ih (n + 1) ctxRef (ms ++ [n]) cfg hrest,
        List.length_cons, List.range'_succ]
      refine congrArg some ?_
      refine Prod.ext ?_ (Prod.ext ?_ rfl)
      · simp [Engine.mk.injEq]
        omega
      · simp

/-- Claim C9: starting from a fresh context, every module created through
`create_module` (with a NUL-free name) is registered in the context's
owned-module vector; dropping the context disposes each such module exactly
once, and every module disposal happens strictly before the context itself
is disposed (the context disposal is the final event). -/
theorem claim_C9_module_disposal (names : List (List Char))
    (n ctxRef : Nat) (cfg : LLVM7CompilerConfig)
    (h : ∀ nm ∈ names, nm.contains (Char.ofNat 0) = false) :
    ∃ e' c' mods,
      createModules ⟨n⟩ ⟨ctxRef, [], cfg⟩ names = some (e', c', mods) ∧
      c'.modules = mods.map LLVM7Module.module ∧
      (∀ m ∈ mods,
        List.count (Event.disposeModule m.module) (dropContext c') = 1) ∧
      (dropContext c').getLast? = some .disposeContext ∧
      (∀ m ∈ mods,
        Event.disposeModule m.module ∈ (dropContext c').dropLast) := by
  refine ⟨⟨n + names.length⟩,
          ⟨ctxRef, [] ++ List.range' n names.length, cfg⟩,
          (List.range' n names.length).map fun r => ⟨ctxRef, r⟩,
          createModules_eq names n ctxRef [] cfg h, ?_, ?_, ?_, ?_⟩
  · simp only [List.nil_append, List.map_map]
    exact (List.map_id (List.range' n names.length)).symm
  · intro m hm
    simp only [List.mem_map] at hm
    obtain ⟨r, hr, hm⟩ := hm
    subst hm
    have hinj : Function.Injective Event.disposeModule :=
      fun a b hab => by cases hab; rfl
    have hnodup : (List.map Event.disposeModule
        (List.range' n names.length)).Nodup :=
      (List.nodup_range' n names.length).map hinj
    have hmem : Event.disposeModule r ∈
        List.map Event.disposeModule (List.range' n names.length) :=
      List.mem_map_of_mem _ hr
    simp only [dropContext, List.nil_append, List.count_append,
      List.count_eq_one_of_mem hnodup hmem]
    simp
  · simp [dropContext, List.getLast?_concat]
  · intro m hm
    simp only [List.mem_map] at hm
    obtain ⟨r, hr, hm⟩ := hm
    subst hm
    simp only [dropContext, List.nil_append, List.dropLast_concat]
    exact List.mem_map_of_mem _ hr

/-- Witness for claim C9 at two concrete NUL-free module names. -/
theorem claim_C9_module_disposal_witness :
    (∀ nm ∈ [['a'], ['b']], nm.contains (Char.ofNat 0) = false) ∧
    (∃ e' c' mods,
      createModules ⟨0⟩ ⟨7, [], ⟨1, .Normal⟩⟩ [['a'], ['b']] =
        some (e', c', mods) ∧
      c'.modules = mods.map LLVM7Module.module ∧
      (∀ m ∈ mods,
        List.count (Event.disposeModule m.module) (dropContext c') = 1) ∧
      (dropContext c').getLast? = some .disposeContext ∧
      (∀ m ∈ mods,
        Event.disposeModule m.module ∈ (dropContext c').dropLast)) :=
  ⟨by decide,
   claim_C9_module_disposal [['a'], ['b']] 0 7 ⟨1, .Normal⟩ (by decide)⟩

/-- Claim C7: in `LLVM7Compiler::run`, once initialization and the frontend
succeed and the ownership sanity check passes, (a) a failure to resolve a
target for the host triple is returned to the caller as a recoverable error
value built from the engine's diagnostic text (not a panic), and (b) a
resolved target without JIT support is returned as a recoverable error
whose message names the triple; in both cases the context is torn down
normally (every owned module disposed, then the context itself). -/
theorem claim_C7_recoverable_target_errors :
    (∀ (E K : Type) (oracle : EngineOracle)
       (user_run : LLVM7Context → LLVM7Context × Except E (CompileInputs K))
       (create_error : String → E) (config : LLVM7CompilerConfig)
       (ctx' : LLVM7Context) (inputs : CompileInputs K) (triple msg : String),
       oracle.initNativeTargetOk = true →
       oracle.initNativeAsmParserOk = true →
       user_run ⟨0, [], config⟩ = (ctx', .ok inputs) →
       (inputs.callable_functions.all fun kf =>
          oracle.getGlobalParent kf.2.function = inputs.module.module) = true →
       oracle.defaultTargetTriple = some triple →
       oracle.getTargetFromTriple triple = .error msg →
       LLVM7Compiler.run oracle user_run create_error config =
         (.err (create_error msg),
          ctx'.modules.map Event.disposeModule ++ [Event.disposeContext])) ∧
    (∀ (E K : Type) (oracle : EngineOracle)
       (user_run : LLVM7Context → LLVM7Context × Except E (CompileInputs K))
       (create_error : String → E) (config : LLVM7CompilerConfig)
       (ctx' : LLVM7Context) (inputs : CompileInputs K)
       (triple : String) (target : Nat),
       oracle.initNativeTargetOk = true →
       oracle.initNativeAsmParserOk = true →
       user_run ⟨0, [], config⟩ = (ctx', .ok inputs) →
       (inputs.callable_functions.all fun kf =>
          oracle.getGlobalParent kf.2.function = inputs.module.module) = true →
       oracle.defaultTargetTriple = some triple →
       oracle.getTargetFromTriple triple = .ok target →
       oracle.targetHasJIT target = false →
       ∃ pre post msg, msg = pre ++ triple ++ post ∧
         LLVM7Compiler.run oracle user_run create_error config =
           (.err (create_error msg),
            ctx'.modules.map Event.disposeModule ++ [Event.disposeContext])) := by
  constructor
  · intro E K oracle user_run create_error config ctx' inputs triple msg
      h1 h2 h3 h4 h5 h6
    unfold LLVM7Compiler.run
    simp [h1, h2, h3, h4, h5, h6, dropContext]
  · intro E K oracle user_run create_error config ctx' inputs triple target
      h1 h2 h3 h4 h5 h6 h7
    refine ⟨"target " ++ "\"", "\"" ++ " doesn't support JIT",
            "target " ++ cstrDebug triple ++ " doesn't support JIT", ?_, ?_⟩
    · simp only [cstrDebug, String.append_assoc]
    · unfold LLVM7Compiler.run
      simp [h1, h2, h3, h4, h5, h6, h7, dropContext]

/-- Witness for claim C7 at concrete oracles: one on which target
resolution fails (the diagnostic is returned as the error), one on which
the resolved target lacks JIT support (the error names the triple); both
runs tear the context down normally. -/
theorem claim_C7_witness :
    oracleResolveFail.getTargetFromTriple "triple-x" =
      .error "no target for triple" ∧
    oracleNoJIT.targetHasJIT 3 = false ∧
    trivialUser ⟨0, [], defaultCfg⟩ = (⟨0, [], defaultCfg⟩, .ok ⟨⟨0, 0⟩, []⟩) ∧
    LLVM7Compiler.run oracleResolveFail trivialUser id defaultCfg =
      (.err "no target for triple", [Event.disposeContext]) ∧
    (∃ pre post msg, msg = pre ++ "triple-x" ++ post ∧
      LLVM7Compiler.run oracleNoJIT trivialUser id defaultCfg =
        (.err msg, [Event.disposeContext])) :=
  ⟨rfl, rfl, rfl,
   claim_C7_recoverable_target_errors.1 String String oracleResolveFail
     trivialUser id defaultCfg ⟨0, [], defaultCfg⟩ ⟨⟨0, 0⟩, []⟩ "triple-x"
     "no target for triple" rfl rfl rfl rfl rfl rfl,
   claim_C7_recoverable_target_errors.2 String String oracleNoJIT
     trivialUser id defaultCfg ⟨0, [], defaultCfg⟩ ⟨⟨0, 0⟩, []⟩ "triple-x" 3
     rfl rfl rfl rfl rfl rfl rfl⟩

/-- Claim C10: `LLVM7Compiler::run` never returns a success value — every
execution returns the frontend's error, returns a target-resolution or
JIT-support error, or panics (the code after the eager JIT-load call is
`unimplemented!()`) — and `symbol_resolver_fn` panics for every symbol name
it is asked to resolve. -/
theorem claim_C10_never_succeeds {E K : Type} (oracle : EngineOracle)
    (user_run : LLVM7Context → LLVM7Context × Except E (CompileInputs K))
    (create_error : String → E) (config : LLVM7CompilerConfig)
    (name : String) (entry_points : List (K × Nat)) :
    symbol_resolver_fn name = none ∧
    (LLVM7Compiler.run oracle user_run create_error config).1 ≠
      RunOutcome.success entry_points := by
  refine ⟨rfl, ?_⟩
  unfold LLVM7Compiler.run
  repeat' split
  all_goals try simp
  all_goals
    rcases hu : user_run ⟨0, [], config⟩ with ⟨ctx2, res⟩
  all_goals rcases res with e | inputs
  all_goals try simp
  all_goals split <;> simp

/-- Claim C1 fails on the code: on a healthy host oracle (target resolves,
JIT supported) with a frontend that builds the spec's `"add"` module and
lists it as callable, `run` does not return a `CompiledCode` handle — it
reaches the eager JIT-load call and then panics at `unimplemented!()`
(backend.rs line 542), even though the module references no external
symbol. -/
theorem claim_C1_add_scenario_hits_unimplemented :
    LLVM7Compiler.run oracleHostOk addUser id defaultCfg =
      (.panic "not implemented",
       [Event.disposeModule 0, Event.disposeContext]) ∧
    ∀ entry_points : List (String × Nat),
      (LLVM7Compiler.run oracleHostOk addUser id defaultCfg).1 ≠
        RunOutcome.success entry_points := by
  refine ⟨rfl, fun entry_points h => ?_⟩
  rw [show LLVM7Compiler.run oracleHostOk addUser id defaultCfg =
      (.panic "not implemented",
       [Event.disposeModule 0, Event.disposeContext]) from rfl] at h
  exact RunOutcome.noConfusion h
